import Mathlib

/-
Shallow embedding of the economic interaction engine of the Marx-Crisis-Model
repository.  Each Python source file is modelled in its own namespace:

* `Sim`     — simulate.py     (multi-good model: Worker, Factory, Government, Market)
* `Perfect` — Agents_perfect.py (single-good model)
* `Period`  — Agents_period.py  (single-good model, periodic-crisis variant)
* `AgentsV` — Agents.py         (earliest single-good variant)

Money, prices, inventories and ratios are Python floats in the source; they are
modelled as exact rationals, with the float literal 1e-5 rendered as 1/100000,
0.2 as 1/5, 1.5 as 3/2, and so on.  Python `int(...)` truncates toward zero.
-/

/-- The epsilon guard 1e-5 used in denominators, as an exact rational. -/
def eps : ℚ := 1 / 100000

/-- Python `int(...)` conversion on a rational: truncation toward zero. -/
def pyInt (q : ℚ) : ℤ := if 0 ≤ q then ⌊q⌋ else ⌈q⌉

namespace Sim

/-- Product categories of simulate.py (class ProductType). -/
inductive ProductType
  | FOOD
  | LIGHT_INDUSTRY
  | HEAVY_INDUSTRY
deriving DecidableEq, Repr

/-- The employment-relevant state of a simulate.py Worker: the employment flag,
the employer reference (`factory`, nullable) and wealth. -/
structure Worker where
  employed : Bool
  factory : Option ℕ
  wealth : ℚ
deriving DecidableEq, Repr

/-- The solvency-relevant state of a simulate.py Factory.  `workers` holds the
ids of the workers on the roster; `production` is an int in the source. -/
structure Factory where
  ptype : ProductType
  production : ℤ
  inventory : ℚ
  debt : ℚ
  bankrupt : Bool
  workers : List ℕ
  last_month_sales : ℚ
deriving DecidableEq, Repr

/-- simulate.py `Factory.inventory_ratio`: inventory / (production * 30 + 1e-5). -/
def Factory.invRatioQ (f : Factory) : ℚ :=
  f.inventory / ((f.production : ℚ) * 30 + eps)

/-- The bankruptcy trigger of simulate.py `Factory.check_bankruptcy`:
(inventory_ratio > 2.0 and debt > production * 15) or debt > production * 30. -/
def bankruptCond (f : Factory) : Prop :=
  (2 < f.invRatioQ ∧ (f.production : ℚ) * 15 < f.debt) ∨
    (f.production : ℚ) * 30 < f.debt

instance (f : Factory) : Decidable (bankruptCond f) := by
  unfold bankruptCond; infer_instance

/-- simulate.py `Factory.check_bankruptcy`: a no-op on an already-bankrupt firm;
on trigger it sets the bankrupt flag, clears each rostered worker's employment
flag (iterating a copy of the roster and removing each worker), and leaves the
roster empty.  The workers' `factory` fields are not touched by this method. -/
def check_bankruptcy (f : Factory) (ws : ℕ → Worker) : Factory × (ℕ → Worker) :=
  if f.bankrupt then (f, ws)
  else if bankruptCond f then
    ({ f with bankrupt := true, workers := [] },
      fun i => if i ∈ f.workers then { ws i with employed := false } else ws i)
  else (f, ws)

/-- simulate.py `Factory.produce`: returns immediately when bankrupt; otherwise
adds the production target to inventory and clamps last_month_sales at 0. -/
def Factory.produce (f : Factory) : Factory :=
  if f.bankrupt then f
  else { f with inventory := f.inventory + (f.production : ℚ),
                last_month_sales := max 0 f.last_month_sales }

/-- simulate.py `Government.intervene` unemployment signal:
(number of workers with employed == False) / (number of workers). -/
def unemploymentQ (ws : List Worker) : ℚ :=
  ((ws.countP fun w => !w.employed : ℕ) : ℚ) / (ws.length : ℚ)

/-- simulate.py `Government.intervene` inventory signal: the sum of the
inventory ratios of the non-bankrupt factories, divided by the constant 3. -/
def avgInvQ (fs : List Factory) : ℚ :=
  (((fs.filter fun f => !f.bankrupt).map Factory.invRatioQ).sum) / 3

/-- simulate.py crisis level: how many of the two indicators
(unemployment > 0.2, inventory signal > 1.5) are breached. -/
def crisisLevel (ws : List Worker) (fs : List Factory) : ℕ :=
  (if 1/5 < unemploymentQ ws then 1 else 0) +
    (if 3/2 < avgInvQ fs then 1 else 0)

/-- The industrial-policy arm of simulate.py `Government.intervene`: a
non-bankrupt HEAVY_INDUSTRY factory gets debt *= 0.7 and
production = int(production * 1.2); every other factory is untouched. -/
def boost (f : Factory) : Factory :=
  if f.ptype = ProductType.HEAVY_INDUSTRY ∧ f.bankrupt = false then
    { f with debt := f.debt * (7/10),
             production := pyInt ((f.production : ℚ) * (6/5)) }
  else f

/-- simulate.py `Government.intervene`, as a function of the current step, the
stored day of the last intervention, and the worker/factory populations.
Returns the new last-intervention day and the updated populations. -/
def intervene (step last : ℤ) (ws : List Worker) (fs : List Factory) :
    ℤ × List Worker × List Factory :=
  if step - last < 60 then (last, ws, fs)
  else if 2 ≤ crisisLevel ws fs then
    (step, ws.map (fun w => { w with wealth := w.wealth + 500 }), fs.map boost)
  else (last, ws, fs)

/-- A run of the government over consecutive days 0, 1, 2, … against an
arbitrary daily environment (worker and factory populations per day),
tracking the stored last-intervention day, initialised to -100 as in
simulate.py `Government.__init__`. -/
def govRun (env : ℕ → List Worker × List Factory) : ℕ → ℤ
  | 0 => -100
  | d + 1 => (intervene (d : ℤ) (govRun env d) (env d).1 (env d).2).1

/-- The government actually intervenes on day `d` of the run: the cooldown has
elapsed and the crisis level reaches 2. -/
def intervenesAt (env : ℕ → List Worker × List Factory) (d : ℕ) : Prop :=
  60 ≤ (d : ℤ) - govRun env d ∧ 2 ≤ crisisLevel (env d).1 (env d).2

instance (env : ℕ → List Worker × List Factory) (d : ℕ) :
    Decidable (intervenesAt env d) := by
  unfold intervenesAt; infer_instance

/-- simulate.py `Market.update_prices`, for a single product category: demand is
amplified by 2; zero supply multiplies the price by 1.5; otherwise the price is
scaled by 0.8 + 0.4 * (demand / (supply + 1)); the result is clamped at the
category's floor. -/
def updatePrice (supply demandRaw price floor : ℚ) : ℚ :=
  let demand := demandRaw * 2
  let p := if supply = 0 then price * (3/2)
           else price * (4/5 + (2/5) * (demand / (supply + 1)))
  max p floor

end Sim

namespace Perfect

/-- The state touched by Agents_perfect.py `Worker.consume` and `Market.sell`:
the worker's wealth, relative wealth and happiness, the single factory's
inventory and wealth, the market price and the two sales counters. -/
structure CState where
  wealth : ℚ
  relative_wealth : ℚ
  happiness : ℚ
  inventory : ℚ
  f_wealth : ℚ
  prices : ℚ
  daily_sales : ℚ
  monthly_sales : ℚ
deriving DecidableEq, Repr

/-- Agents_perfect.py `Market.sell`: decrements the factory inventory, credits
the factory quantity * price, and bumps both sales counters. -/
def marketSell (q : ℚ) (s : CState) : CState :=
  { s with inventory := s.inventory - q,
           f_wealth := s.f_wealth + q * s.prices,
           daily_sales := s.daily_sales + q,
           monthly_sales := s.monthly_sales + q }

/-- Agents_perfect.py `Worker.consume` with the drawn quantity `need` made a
parameter.  First the unconditional subsistence deduction of 1 and the
relative-wealth update; then, if the worker can afford `need` units and the
factory inventory strictly exceeds `need`, the purchase: the worker pays, the
market's `sell` runs, and then the same factory/counter updates are applied a
second time inline, and happiness rises by 5.  Otherwise happiness falls by 1,
whether stock or funds were lacking. -/
def consume (need : ℕ) (s0 : CState) : CState :=
  let s1 : CState := { s0 with wealth := s0.wealth - 1 }
  let s2 : CState := { s1 with relative_wealth := s1.wealth / s1.prices }
  if 0 ≤ s2.wealth - s2.prices * need ∧ (need : ℚ) < s2.inventory then
    let s3 : CState := { s2 with wealth := s2.wealth - s2.prices * need }
    let s4 : CState := marketSell need s3
    let s5 : CState :=
      { s4 with inventory := s4.inventory - need,
                f_wealth := s4.f_wealth + s4.prices * need,
                daily_sales := s4.daily_sales + need,
                monthly_sales := s4.monthly_sales + need }
    { s5 with happiness := s5.happiness + 5 }
  else if s2.inventory < need then
    { s2 with happiness := s2.happiness - 1 }
  else
    { s2 with happiness := s2.happiness - 1 }

/-- The production-relevant state of an Agents_perfect.py Factory; `workers`
holds each rostered worker's work_duration. -/
structure PFactory where
  wage : ℚ
  daily_production : ℤ
  last_daily_production : ℤ
  monthly_production : ℤ
  inventory : ℚ
  wealth : ℚ
  job_offer : ℤ
  workers : List ℚ
deriving DecidableEq, Repr

/-- Agents_perfect.py `Factory.produce`: a no-op when the workforce is empty;
otherwise wealth drops by the fixed overhead 5 * job_offer + 100, the daily
output is the sum of int(0.5 * work_duration) over the workforce, the wage is
deducted per worker, and the output is added to inventory and to the monthly
production counter. -/
def produce (f : PFactory) : PFactory :=
  if f.workers.length = 0 then f
  else
    let out : ℤ := (f.workers.map fun d => pyInt ((1/2) * d)).sum
    { f with
      wealth := f.wealth - (5 * (f.job_offer : ℚ) + 100)
                  - f.wage * (f.workers.length : ℚ),
      last_daily_production := f.daily_production,
      daily_production := out,
      inventory := f.inventory + (out : ℚ),
      monthly_production := f.monthly_production + out }

/-- The pricing state of the Agents_perfect.py Market. -/
structure PMarket where
  prices : ℚ
  min_price : ℚ
  last_daily_sales : ℚ
deriving DecidableEq, Repr

/-- Agents_perfect.py `Market.update_prices`: supply is the factory inventory
clamped at 0; zero supply doubles the price, otherwise the price is scaled by
0.95 + 0.05 * (last_daily_sales / supply); the result is clamped at the floor. -/
def updatePrices (factoryInventory : ℚ) (m : PMarket) : PMarket :=
  let supply := max 0 factoryInventory
  let p := if supply = 0 then m.prices * 2
           else m.prices * (19/20 + (1/20) * (m.last_daily_sales / supply))
  { m with prices := max m.min_price p }

/-- The state touched by Agents_perfect.py `Worker.choose_factory`: the day
counter, the worker's wealth, employment flag and employer reference, and the
single factory's roster (of worker ids), hiring flag and job-offer capacity. -/
structure MatchState where
  steps : ℕ
  wealth : ℚ
  employed : Bool
  factory : Option ℕ
  fworkers : List ℕ
  hiring : Bool
  job_offer : ℤ
deriving DecidableEq, Repr

/-- Agents_perfect.py `Worker.choose_factory` for the worker with id `wid`:
a no-op off the matching interval while employed; a rich worker (wealth > 900)
quits, clearing its flag and leaving the roster without clearing its employer
reference; if the factory is not hiring, nothing happens; otherwise the worker
joins: flag set, reference set, roster appended, hiring flag recomputed from
the remaining capacity. -/
def choose_factory (wid : ℕ) (s : MatchState) : MatchState :=
  if s.steps % 30 ≠ 0 ∧ s.employed = true then s
  else if 900 < s.wealth then
    if s.employed = true then
      { s with employed := false, fworkers := s.fworkers.erase wid }
    else s
  else if s.hiring = false then s
  else
    let fw := s.fworkers ++ [wid]
    { s with employed := true, factory := some 0, fworkers := fw,
             hiring := decide (0 < s.job_offer - (fw.length : ℤ)) }

end Perfect

namespace Period

/-- Agents_period.py `Worker.consume`: identical in shape to the
Agents_perfect.py version but with a subsistence deduction of 2, a stock-out
happiness penalty of 9 and an unaffordability penalty of 5. -/
def consume (need : ℕ) (s0 : Perfect.CState) : Perfect.CState :=
  let s1 : Perfect.CState := { s0 with wealth := s0.wealth - 2 }
  let s2 : Perfect.CState := { s1 with relative_wealth := s1.wealth / s1.prices }
  if 0 ≤ s2.wealth - s2.prices * need ∧ (need : ℚ) < s2.inventory then
    let s3 : Perfect.CState := { s2 with wealth := s2.wealth - s2.prices * need }
    let s4 : Perfect.CState := Perfect.marketSell need s3
    let s5 : Perfect.CState :=
      { s4 with inventory := s4.inventory - need,
                f_wealth := s4.f_wealth + s4.prices * need,
                daily_sales := s4.daily_sales + need,
                monthly_sales := s4.monthly_sales + need }
    { s5 with happiness := s5.happiness + 5 }
  else if s2.inventory < need then
    { s2 with happiness := s2.happiness - 9 }
  else
    { s2 with happiness := s2.happiness - 5 }

/-- The state mutated by the Agents_period.py `Government.intervene`. -/
structure World where
  inventory : ℚ
  wage : ℚ
  hiring : Bool
  prices : ℚ
  job_offer : ℤ
deriving DecidableEq, Repr

/-- Agents_period.py `Government.intervene`: runs unconditionally on every step,
with no cooldown check — scales the factory inventory by 0.01 and resets wage,
hiring flag, market price and job-offer capacity. -/
def intervene (s : World) : World :=
  { inventory := s.inventory * (1/100), wage := 30, hiring := true,
    prices := 20, job_offer := 40 }

end Period

namespace AgentsV

/-- The pricing state of the Agents.py Market. -/
structure AMarket where
  prices : ℚ
  min_price : ℚ
  monthly_sales : ℚ
  monthly_demand : ℚ
deriving DecidableEq, Repr

/-- Agents.py `Market.update_prices`: supply is the factory inventory clamped
at 0, demand is monthly_sales amplified by 1.2; zero supply doubles the price,
otherwise the price is scaled by 0.8 + 0.4 * (demand / (supply + 1)).  The
price-floor comment in the source is followed by no clamping code, so the
result is returned unclamped. -/
def update_prices (factoryInventory : ℚ) (m : AMarket) : AMarket :=
  let supply := max 0 factoryInventory
  let md := m.monthly_sales * (6/5)
  let p := if supply = 0 then m.prices * 2
           else m.prices * (4/5 + (2/5) * (md / (supply + 1)))
  { m with prices := p, monthly_demand := md }

end AgentsV

/-- Modelled from the claim's words, for comparison with `Sim.avgInvQ`: the
average inventory ratio across solvent (non-bankrupt) firms, i.e. the sum of
their inventory ratios divided by the number of solvent firms. -/
def specSolventAvg (fs : List Sim.Factory) : ℚ :=
  (((fs.filter fun f => !f.bankrupt).map Sim.Factory.invRatioQ).sum) /
    (((fs.filter fun f => !f.bankrupt).length : ℕ) : ℚ)

/-- Concrete fixture: a solvent simulate.py factory with production 10 and
debt 31 * production, one rostered worker. -/
def c1F : Sim.Factory :=
  { ptype := Sim.ProductType.FOOD, production := 10, inventory := 0,
    debt := 310, bankrupt := false, workers := [0], last_month_sales := 100 }

/-- Concrete fixture: every worker id maps to an employed worker whose
employer reference points at factory 0. -/
def c1W : ℕ → Sim.Worker := fun _ => { employed := true, factory := some 0, wealth := 0 }

/-- Concrete fixture: an Agents_perfect.py consume state with wealth 100,
price 1 and factory inventory 3. -/
def c2S : Perfect.CState :=
  { wealth := 100, relative_wealth := 5, happiness := 10, inventory := 3,
    f_wealth := 0, prices := 1, daily_sales := 0, monthly_sales := 0 }

/-- Concrete fixture: a solvent simulate.py factory with production 1 and
debt 31, worker 5 on the roster. -/
def c4F : Sim.Factory :=
  { ptype := Sim.ProductType.FOOD, production := 1, inventory := 0,
    debt := 31, bankrupt := false, workers := [5], last_month_sales := 0 }

/-- Concrete fixture: every worker id maps to an employed worker referencing
factory 0 (used with `c4F`). -/
def c4W : ℕ → Sim.Worker := fun _ => { employed := true, factory := some 0, wealth := 7 }

/-- Concrete fixture: a single unemployed worker, making the unemployment
ratio equal to 1. -/
def c3Ws : List Sim.Worker := [{ employed := false, factory := none, wealth := 0 }]

/-- Concrete fixture: a single solvent heavy-industry factory whose inventory
ratio is high enough that the inventory crisis indicator is breached. -/
def c3Fs : List Sim.Factory :=
  [{ ptype := Sim.ProductType.HEAVY_INDUSTRY, production := 1, inventory := 200,
     debt := 0, bankrupt := false, workers := [], last_month_sales := 0 }]

/-- Concrete fixture: a constant daily environment in permanent crisis. -/
def c3Env : ℕ → List Sim.Worker × List Sim.Factory := fun _ => (c3Ws, c3Fs)

/-- Concrete fixture: a starting state for the Agents_period.py government. -/
def c3P : Period.World :=
  { inventory := 10000, wage := 15, hiring := false, prices := 50, job_offer := 3 }

/-- Concrete fixture: an Agents.py market sitting exactly at its price floor
with no sales recorded. -/
def c5M : AgentsV.AMarket :=
  { prices := 1, min_price := 1, monthly_sales := 0, monthly_demand := 0 }

/-- Concrete fixture: an Agents_perfect.py market at its initial values. -/
def c6M : Perfect.PMarket := { prices := 20, min_price := 1, last_daily_sales := 125 }

/-- Concrete fixture: an Agents_perfect.py factory with one rostered worker
whose work_duration is 8. -/
def c7F : Perfect.PFactory :=
  { wage := 40, daily_production := 0, last_daily_production := 0,
    monthly_production := 0, inventory := 100, wealth := 0, job_offer := 50,
    workers := [8] }

/-- Concrete fixture: the same factory with an empty workforce. -/
def c7E : Perfect.PFactory :=
  { wage := 40, daily_production := 0, last_daily_production := 0,
    monthly_production := 0, inventory := 100, wealth := 0, job_offer := 50,
    workers := [] }

/-- Concrete fixture: two workers, one unemployed — unemployment ratio 1/2. -/
def c8Ws : List Sim.Worker :=
  [{ employed := false, factory := none, wealth := 3 },
   { employed := true, factory := some 0, wealth := 3 }]

/-- Concrete fixture: one bankrupt factory and two solvent factories whose
inventory ratio is exactly 2 (inventory = 2 * (30 + 1e-5)). -/
def c8FsCE : List Sim.Factory :=
  [{ ptype := Sim.ProductType.FOOD, production := 1, inventory := 0,
     debt := 0, bankrupt := true, workers := [], last_month_sales := 0 },
   { ptype := Sim.ProductType.HEAVY_INDUSTRY, production := 1,
     inventory := 3000001/50000, debt := 0, bankrupt := false, workers := [],
     last_month_sales := 0 },
   { ptype := Sim.ProductType.LIGHT_INDUSTRY, production := 1,
     inventory := 3000001/50000, debt := 0, bankrupt := false, workers := [],
     last_month_sales := 0 }]

/-- Concrete fixture: a single solvent heavy-industry factory with debt 40 and
an inventory ratio large enough to breach the code's inventory signal. -/
def c8FsW : List Sim.Factory :=
  [{ ptype := Sim.ProductType.HEAVY_INDUSTRY, production := 1, inventory := 200,
     debt := 40, bankrupt := false, workers := [], last_month_sales := 0 }]

/-- Concrete fixture: a consume state that fails by stock-out (inventory 0). -/
def c9A : Perfect.CState :=
  { wealth := 100, relative_wealth := 0, happiness := 50, inventory := 0,
    f_wealth := 0, prices := 1, daily_sales := 0, monthly_sales := 0 }

/-- Concrete fixture: a consume state that fails by unaffordability
(wealth 1, price 100, ample stock). -/
def c9B : Perfect.CState :=
  { wealth := 1, relative_wealth := 0, happiness := 50, inventory := 50,
    f_wealth := 0, prices := 100, daily_sales := 0, monthly_sales := 0 }

/-- Concrete fixture: a destitute consume state with no stock available. -/
def c10S : Perfect.CState :=
  { wealth := 0, relative_wealth := 0, happiness := 0, inventory := 0,
    f_wealth := 0, prices := 1, daily_sales := 0, monthly_sales := 0 }

-- quick sanity checks of the embedding on concrete values
example : Sim.updatePrice 0 0 10 5 = 15 := by norm_num [Sim.updatePrice]
example : pyInt (6/5 * 10) = 12 := by norm_num [pyInt]
example : pyInt (1/2 * 8) = 4 := by norm_num [pyInt]

/-- The triggered branch of simulate.py `Factory.check_bankruptcy` as an
explicit equation. -/
theorem sim_check_bankruptcy_pos (f : Sim.Factory) (ws : ℕ → Sim.Worker)
    (hb : f.bankrupt = false) (hc : Sim.bankruptCond f) :
    Sim.check_bankruptcy f ws =
      ({ f with bankrupt := true, workers := [] },
        fun i => if i ∈ f.workers then { ws i with employed := false } else ws i) := by
  unfold Sim.check_bankruptcy
  split_ifs with h1
  · rw [hb] at h1; exact Bool.noConfusion h1
  · rfl

/-- The untriggered branch of simulate.py `Factory.check_bankruptcy` as an
explicit equation. -/
theorem sim_check_bankruptcy_neg (f : Sim.Factory) (ws : ℕ → Sim.Worker)
    (hc : ¬ Sim.bankruptCond f) :
    Sim.check_bankruptcy f ws = (f, ws) := by
  unfold Sim.check_bankruptcy
  split_ifs with h1
  · rfl
  · rfl

/-- The concrete factory `c1F` satisfies the bankruptcy trigger through its
debt disjunct: 310 > 10 * 30. -/
theorem c1F_cond : Sim.bankruptCond c1F := by
  unfold Sim.bankruptCond
  right
  norm_num [c1F]

/-- Claim C1, as frozen, is refuted at a concrete input: a solvent firm with
production 10 and debt 310 triggers the bankruptcy transition, every rostered
worker's employment flag is cleared — but the worker's employer reference is
NOT cleared: it still points at the bankrupt firm, where the claim says it is
cleared. -/
theorem c1_counterexample :
    (Sim.check_bankruptcy c1F c1W).1.bankrupt = true ∧
    ((Sim.check_bankruptcy c1F c1W).2 0).employed = false ∧
    ((Sim.check_bankruptcy c1F c1W).2 0).factory = some 0 ∧
    ((Sim.check_bankruptcy c1F c1W).2 0).factory ≠ none := by
  rw [sim_check_bankruptcy_pos c1F c1W rfl c1F_cond]
  simp [c1F, c1W]

/-- Claim C1 as amended: a solvent firm transitions to bankrupt on its daily
bankruptcy check exactly when (inventory_ratio > 2 and debt > production * 15)
or debt > production * 30; on that transition every rostered worker's
employment flag is cleared while its employer reference is left unchanged, the
workforce becomes empty, and the firm stops producing; in particular a firm
with production = 10 and debt = 31 * production goes bankrupt with an empty
workforce regardless of prior workforce size. -/
theorem c1_amended_thm :
    (∀ (f : Sim.Factory) (ws : ℕ → Sim.Worker), f.bankrupt = false →
      Sim.bankruptCond f →
        (Sim.check_bankruptcy f ws).1.bankrupt = true ∧
        (Sim.check_bankruptcy f ws).1.workers = [] ∧
        ∀ i ∈ f.workers,
          ((Sim.check_bankruptcy f ws).2 i).employed = false ∧
          ((Sim.check_bankruptcy f ws).2 i).factory = (ws i).factory) ∧
    (∀ (f : Sim.Factory) (ws : ℕ → Sim.Worker), f.bankrupt = false →
      ¬ Sim.bankruptCond f → Sim.check_bankruptcy f ws = (f, ws)) ∧
    (∀ f : Sim.Factory, f.bankrupt = true → f.produce = f) ∧
    (∀ (f : Sim.Factory) (ws : ℕ → Sim.Worker), f.bankrupt = false →
      f.production = 10 → f.debt = 31 * 10 →
        (Sim.check_bankruptcy f ws).1.bankrupt = true ∧
        (Sim.check_bankruptcy f ws).1.workers = []) := by
  refine ⟨?_, ?_, ?_, ?_⟩
  · intro f ws hb hc
    rw [sim_check_bankruptcy_pos f ws hb hc]
    refine ⟨rfl, rfl, ?_⟩
    intro i hi
    simp [hi]
  · intro f ws hb hc
    exact sim_check_bankruptcy_neg f ws hc
  · intro f hb
    simp [Sim.Factory.produce, hb]
  · intro f ws hb hp hd
    have hc : Sim.bankruptCond f := by
      unfold Sim.bankruptCond
      right
      rw [hp, hd]
      norm_num
    rw [sim_check_bankruptcy_pos f ws hb hc]
    exact ⟨rfl, rfl⟩

/-- Witness for C1's amended theorem at the concrete fixture. -/
theorem c1_witness :
    (Sim.check_bankruptcy c1F c1W).1.bankrupt = true ∧
    (Sim.check_bankruptcy c1F c1W).1.workers = [] := by
  exact c1_amended_thm.2.2.2 c1F c1W rfl rfl (by norm_num [c1F])

/-- Claim C2: the code contradicts the stated contract at a concrete input.
With wealth 100, price 1, inventory 3 and a drawn quantity of 2, the
pre-check (inventory > need) passes, but `Worker.consume` both calls
`Market.sell` and then repeats the same inventory/wealth/counter mutations
inline, so the inventory is decremented by 4 (twice the quantity), ending at
-1 < 0, the firm is credited 4 = 2 * qty * price, and both sales counters rise
by 4 instead of 2. -/
theorem c2_bug_thm :
    (Perfect.consume 2 c2S).inventory = -1 ∧
    (Perfect.consume 2 c2S).inventory < 0 ∧
    c2S.inventory - (Perfect.consume 2 c2S).inventory = 4 ∧
    (Perfect.consume 2 c2S).daily_sales = 4 ∧
    (Perfect.consume 2 c2S).monthly_sales = 4 ∧
    (Perfect.consume 2 c2S).f_wealth = 4 := by
  norm_num [Perfect.consume, Perfect.marketSell, c2S]

/-- Claim C4, as frozen, is refuted at a concrete input: after the bankruptcy
transition of a firm whose roster holds worker 5, that worker has its
employment flag false while its employer reference is still non-null, so the
biconditional (employed = true iff factory is non-null) fails. -/
theorem c4_counterexample :
    ¬ (((Sim.check_bankruptcy c4F c4W).2 5).employed = true ↔
        ((Sim.check_bankruptcy c4F c4W).2 5).factory ≠ none) := by
  have hc : Sim.bankruptCond c4F := by
    unfold Sim.bankruptCond
    right
    norm_num [c4F]
  rw [sim_check_bankruptcy_pos c4F c4W rfl hc]
  simp [c4F, c4W]

/-- Claim C4 as amended: the forward implication — an employed worker always
has a non-null employer reference — is preserved both by the matching step
(Agents_perfect.py `Worker.choose_factory`) and by the bankruptcy expulsion
(simulate.py `Factory.check_bankruptcy`); the converse direction is not
preserved, since bankruptcy expulsion (and the rich-exit path) clears the
employment flag without clearing the employer reference. -/
theorem c4_amended_thm :
    (∀ (wid : ℕ) (s : Perfect.MatchState),
      (s.employed = true → s.factory ≠ none) →
      ((Perfect.choose_factory wid s).employed = true →
        (Perfect.choose_factory wid s).factory ≠ none)) ∧
    (∀ (f : Sim.Factory) (ws : ℕ → Sim.Worker),
      (∀ i, (ws i).employed = true → (ws i).factory ≠ none) →
      ∀ i, ((Sim.check_bankruptcy f ws).2 i).employed = true →
        ((Sim.check_bankruptcy f ws).2 i).factory ≠ none) := by
  constructor
  · intro wid s hinv
    unfold Perfect.choose_factory
    split_ifs with h1 h2 h3 h4
    · exact hinv
    · simp
    · exact hinv
    · exact hinv
    · simp
  · intro f ws hinv i
    unfold Sim.check_bankruptcy
    split_ifs with h1 h2
    · exact hinv i
    · by_cases hm : i ∈ f.workers
      · simp [hm]
      · simpa [hm] using hinv i
    · exact hinv i

/-- Witness for C4's amended theorem at concrete fixtures. -/
theorem c4_witness :
    ((Sim.check_bankruptcy c4F c4W).2 5).employed = true →
      ((Sim.check_bankruptcy c4F c4W).2 5).factory ≠ none := by
  exact c4_amended_thm.2 c4F c4W (fun i h => by simp [c4W]) 5

/-- Unfolding of the intervention predicate. -/
theorem sim_intervenesAt_iff (env : ℕ → List Sim.Worker × List Sim.Factory)
    (d : ℕ) :
    Sim.intervenesAt env d ↔
      60 ≤ (d : ℤ) - Sim.govRun env d ∧
        2 ≤ Sim.crisisLevel (env d).1 (env d).2 := Iff.rfl

/-- One day of the government run: the stored last-intervention day becomes
`d` exactly when the government intervenes on day `d`. -/
theorem sim_govRun_succ (env : ℕ → List Sim.Worker × List Sim.Factory) (d : ℕ) :
    Sim.govRun env (d + 1) =
      if Sim.intervenesAt env d then (d : ℤ) else Sim.govRun env d := by
  by_cases hC : Sim.intervenesAt env d
  · rw [if_pos hC]
    obtain ⟨h1, h2⟩ := (sim_intervenesAt_iff env d).mp hC
    show (Sim.intervene (d : ℤ) (Sim.govRun env d) (env d).1 (env d).2).1 = _
    unfold Sim.intervene
    rw [if_neg (by omega), if_pos h2]
  · rw [if_neg hC]
    show (Sim.intervene (d : ℤ) (Sim.govRun env d) (env d).1 (env d).2).1 = _
    unfold Sim.intervene
    by_cases hA : (d : ℤ) - Sim.govRun env d < 60
    · rw [if_pos hA]
    · have h2 : ¬ 2 ≤ Sim.crisisLevel (env d).1 (env d).2 := fun h =>
        hC ((sim_intervenesAt_iff env d).mpr ⟨by omega, h⟩)
      rw [if_neg hA, if_neg h2]

/-- The stored last-intervention day never gets ahead of the current day. -/
theorem sim_govRun_le (env : ℕ → List Sim.Worker × List Sim.Factory) :
    ∀ d, Sim.govRun env d ≤ (d : ℤ) := by
  intro d
  induction d with
  | zero => norm_num [Sim.govRun]
  | succ n ih =>
    rw [sim_govRun_succ]
    split_ifs
    · push_cast; omega
    · push_cast; push_cast at ih; omega

/-- The stored last-intervention day is nondecreasing along the run. -/
theorem sim_govRun_mono (env : ℕ → List Sim.Worker × List Sim.Factory)
    {d e : ℕ} (h : d ≤ e) : Sim.govRun env d ≤ Sim.govRun env e := by
  induction e with
  | zero =>
    have hd : d = 0 := Nat.le_zero.mp h
    rw [hd]
  | succ n ih =>
    rcases Nat.lt_or_ge d (n + 1) with hlt | hge
    · have hdn : d ≤ n := Nat.lt_succ_iff.mp hlt
      refine le_trans (ih hdn) ?_
      rw [sim_govRun_succ]
      split_ifs with hi
      · have h1 := ((sim_intervenesAt_iff env n).mp hi).1
        omega
      · exact le_refl _
    · have hde : d = n + 1 := Nat.le_antisymm h hge
      rw [hde]


/-- Claim C3, as frozen, is refuted on the Agents_period.py variant: its
`Government.intervene` runs unconditionally, so from a concrete state it
performs an effective intervention (inventory scaled by 0.01) on two
consecutive days — two interventions one day apart, far inside the 60-day
window the claim asserts. -/
theorem c3_counterexample :
    (Period.intervene c3P).inventory = 100 ∧
    Period.intervene c3P ≠ c3P ∧
    (Period.intervene (Period.intervene c3P)).inventory = 1 ∧
    Period.intervene (Period.intervene c3P) ≠ Period.intervene c3P := by
  refine ⟨by norm_num [Period.intervene, c3P], ?_, by norm_num [Period.intervene, c3P], ?_⟩
  · intro h
    have := congrArg Period.World.inventory h
    norm_num [Period.intervene, c3P] at this
  · intro h
    have := congrArg Period.World.inventory h
    norm_num [Period.intervene, c3P] at this

/-- Claim C3 as amended: the simulate.py Government never intervenes twice
within 60 days — along any run, an intervention on day d excludes another in
the following 59 days; its evaluation is a no-op when fewer than 60 days have
elapsed since the stored last intervention; and the stored day changes only
when an intervention actually triggers, in which case it becomes the current
step.  The Agents_period.py variant has no such cooldown (see the
counterexample). -/
theorem c3_amended_thm :
    (∀ (env : ℕ → List Sim.Worker × List Sim.Factory) (d e : ℕ),
      Sim.intervenesAt env d → 1 ≤ e → e < 60 →
        ¬ Sim.intervenesAt env (d + e)) ∧
    (∀ (step last : ℤ) (ws : List Sim.Worker) (fs : List Sim.Factory),
      step - last < 60 → Sim.intervene step last ws fs = (last, ws, fs)) ∧
    (∀ (step last : ℤ) (ws : List Sim.Worker) (fs : List Sim.Factory),
      (Sim.intervene step last ws fs).1 ≠ last →
        (Sim.intervene step last ws fs).1 = step ∧ 60 ≤ step - last ∧
          2 ≤ Sim.crisisLevel ws fs) := by
  refine ⟨?_, ?_, ?_⟩
  · intro env d e hd he1 he2 hcontra
    have h1 : Sim.govRun env (d + 1) = (d : ℤ) := by
      rw [sim_govRun_succ, if_pos hd]
    have h2 : (d : ℤ) ≤ Sim.govRun env (d + e) := by
      rw [← h1]
      exact sim_govRun_mono env (by omega)
    have h3 := ((sim_intervenesAt_iff env (d + e)).mp hcontra).1
    push_cast at h3
    omega
  · intro step last ws fs h
    unfold Sim.intervene
    rw [if_pos h]
  · intro step last ws fs h
    unfold Sim.intervene at h ⊢
    split_ifs at h ⊢ with h1 h2
    · exact absurd rfl h
    · exact ⟨rfl, by omega, h2⟩
    · exact absurd rfl h

/-- Witness for C3's amended theorem: in the permanently-critical concrete
environment the government intervenes on day 0, so it does not intervene on
day 1; a concrete evaluation inside the cooldown is a no-op; and a concrete
triggering evaluation stamps the current step. -/
theorem c3_witness :
    (¬ Sim.intervenesAt c3Env (0 + 1)) ∧
    Sim.intervene 5 0 [] [] = (0, [], []) ∧
    ((Sim.intervene 0 (-100) c3Ws c3Fs).1 = 0 ∧ 60 ≤ (0 : ℤ) - (-100) ∧
      2 ≤ Sim.crisisLevel c3Ws c3Fs) := by
  have hlevel : Sim.crisisLevel c3Ws c3Fs = 2 := by
    norm_num [Sim.crisisLevel, Sim.unemploymentQ, Sim.avgInvQ,
      Sim.Factory.invRatioQ, eps, c3Ws, c3Fs]
  have h0 : Sim.intervenesAt c3Env 0 := by
    rw [sim_intervenesAt_iff]
    refine ⟨?_, ?_⟩
    · norm_num [Sim.govRun]
    · show 2 ≤ Sim.crisisLevel c3Ws c3Fs
      rw [hlevel]
  refine ⟨c3_amended_thm.1 c3Env 0 1 h0 (by norm_num) (by norm_num), ?_, ?_⟩
  · exact c3_amended_thm.2.1 5 0 [] [] (by norm_num)
  · refine c3_amended_thm.2.2 0 (-100) c3Ws c3Fs ?_
    unfold Sim.intervene
    rw [if_neg (by norm_num), if_pos (by rw [hlevel])]
    norm_num


/-- Claim C5: the code contradicts the price-floor property at a concrete
input.  Agents.py `Market.update_prices` carries the price-floor comment but
no clamping code: an update from price 1 (the floor) with no recorded sales
and supply 1 leaves the price at 4/5, strictly below the configured floor 1. -/
theorem c5_bug_thm :
    (AgentsV.update_prices 1 c5M).prices = 4/5 ∧
    (AgentsV.update_prices 1 c5M).prices < c5M.min_price := by
  norm_num [AgentsV.update_prices, c5M]

/-- Claim C6, as frozen, is refuted at a concrete input: in the simulate.py
variant a zero-supply price update multiplies the price by 1.5, not 2 — from
price 10 (floor 5, no demand) the update yields 15, not the doubled 20. -/
theorem c6_counterexample :
    Sim.updatePrice 0 0 10 5 = 15 ∧ Sim.updatePrice 0 0 10 5 ≠ 10 * 2 := by
  norm_num [Sim.updatePrice]

/-- Claim C6 as amended: in the Agents_perfect.py variant a zero-supply update
exactly doubles the price pre-floor and otherwise scales it by
0.95 + 0.05 * (last_daily_sales / supply), clamped to the floor; in the
simulate.py variant a zero-supply update multiplies the price by 1.5 (not 2)
and otherwise scales it by 0.8 + 0.4 * (2 * demand / (supply + 1)), clamped to
the per-category floor; in both variants the updated price is at least the
floor. -/
theorem c6_amended_thm :
    (∀ (inv : ℚ) (m : Perfect.PMarket), inv ≤ 0 →
      (Perfect.updatePrices inv m).prices = max m.min_price (m.prices * 2)) ∧
    (∀ (inv : ℚ) (m : Perfect.PMarket), 0 < inv →
      (Perfect.updatePrices inv m).prices =
        max m.min_price (m.prices * (19/20 + (1/20) * (m.last_daily_sales / inv)))) ∧
    (∀ d p fl : ℚ, Sim.updatePrice 0 d p fl = max (p * (3/2)) fl) ∧
    (∀ s d p fl : ℚ, s ≠ 0 →
      Sim.updatePrice s d p fl =
        max (p * (4/5 + (2/5) * ((d * 2) / (s + 1)))) fl) ∧
    (∀ (inv : ℚ) (m : Perfect.PMarket),
      m.min_price ≤ (Perfect.updatePrices inv m).prices) ∧
    (∀ s d p fl : ℚ, fl ≤ Sim.updatePrice s d p fl) := by
  refine ⟨?_, ?_, ?_, ?_, ?_, ?_⟩
  · intro inv m h
    simp only [Perfect.updatePrices]
    rw [max_eq_left h]
    simp
  · intro inv m h
    simp only [Perfect.updatePrices]
    rw [max_eq_right h.le, if_neg h.ne']
  · intro d p fl
    simp [Sim.updatePrice]
  · intro s d p fl h
    simp only [Sim.updatePrice]
    rw [if_neg h]
  · intro inv m
    simp only [Perfect.updatePrices]
    exact le_max_left _ _
  · intro s d p fl
    simp only [Sim.updatePrice]
    exact le_max_right _ _

/-- Witness for C6's amended theorem at concrete markets: a zero-supply update
of the Agents_perfect.py market doubles the price, a positive-supply update
follows the proportional rule, and a positive-supply simulate.py update
follows its rule. -/
theorem c6_witness :
    (Perfect.updatePrices 0 c6M).prices = max c6M.min_price (c6M.prices * 2) ∧
    (Perfect.updatePrices 250 c6M).prices =
      max c6M.min_price (c6M.prices * (19/20 + (1/20) * (c6M.last_daily_sales / 250))) ∧
    Sim.updatePrice 4 10 20 5 = max (20 * (4/5 + (2/5) * ((10 * 2) / (4 + 1)))) 5 := by
  exact ⟨c6_amended_thm.1 0 c6M (by norm_num),
    c6_amended_thm.2.1 250 c6M (by norm_num),
    c6_amended_thm.2.2.2.1 4 10 20 5 (by norm_num)⟩

/-- Claim C7, as frozen, is refuted at a concrete input: an Agents_perfect.py
factory with one worker, wage 40 and job_offer 50 has its wealth reduced by
390 on produce — the payroll 40 plus the fixed overhead 5 * 50 + 100 = 350 —
not by the payroll alone as the claim states. -/
theorem c7_counterexample :
    (Perfect.produce c7F).wealth = -390 ∧
    (Perfect.produce c7F).wealth ≠
      c7F.wealth - c7F.wage * (c7F.workers.length : ℚ) := by
  norm_num [Perfect.produce, pyInt, c7F]

/-- Claim C7 as amended, for the Agents_perfect.py variant: with a nonempty
workforce, daily output equals the sum over the workforce of
int(0.5 * work_duration); the wealth deduction is the payroll
wage * len(workforce) PLUS the fixed overhead 5 * job_offer + 100; the output
is added to the inventory and to the monthly production counter; with an empty
workforce produce is a complete no-op (no cost, no output, wealth and
inventory unchanged). -/
theorem c7_amended_thm :
    (∀ f : Perfect.PFactory, f.workers = [] → Perfect.produce f = f) ∧
    (∀ f : Perfect.PFactory, f.workers ≠ [] →
      (Perfect.produce f).daily_production =
        (f.workers.map fun d => pyInt ((1/2) * d)).sum ∧
      (Perfect.produce f).wealth =
        f.wealth - (5 * (f.job_offer : ℚ) + 100)
          - f.wage * (f.workers.length : ℚ) ∧
      (Perfect.produce f).inventory =
        f.inventory + (((f.workers.map fun d => pyInt ((1/2) * d)).sum : ℤ) : ℚ) ∧
      (Perfect.produce f).monthly_production =
        f.monthly_production + (f.workers.map fun d => pyInt ((1/2) * d)).sum ∧
      (Perfect.produce f).last_daily_production = f.daily_production) := by
  constructor
  · intro f h
    simp [Perfect.produce, h]
  · intro f h
    have hlen : f.workers.length ≠ 0 := fun hc => h (List.length_eq_zero.mp hc)
    simp [Perfect.produce, hlen]

/-- Witness for C7's amended theorem at the concrete fixtures: empty-workforce
produce is the identity, and the one-worker factory's wealth drops by payroll
plus overhead. -/
theorem c7_witness :
    Perfect.produce c7E = c7E ∧
    (Perfect.produce c7F).wealth =
      c7F.wealth - (5 * (c7F.job_offer : ℚ) + 100)
        - c7F.wage * (c7F.workers.length : ℚ) := by
  exact ⟨c7_amended_thm.1 c7E (by simp [c7E]),
    (c7_amended_thm.2 c7F (by simp [c7F])).2.1⟩


/-- Claim C8, as frozen, is refuted at a concrete input: with one bankrupt and
two solvent factories of inventory ratio 2 each, the average inventory ratio
across solvent firms is 2 > 1.5 and unemployment is 1/2 > 0.2, so the claim
says the intervention triggers; but the code divides the solvent sum by the
constant 3, giving 4/3 < 1.5, and the evaluation (well past the cooldown)
changes nothing — no worker receives any stimulus. -/
theorem c8_counterexample :
    3/2 < specSolventAvg c8FsCE ∧
    1/5 < Sim.unemploymentQ c8Ws ∧
    ¬ ((0 : ℤ) - (-100) < 60) ∧
    Sim.intervene 0 (-100) c8Ws c8FsCE = (-100, c8Ws, c8FsCE) := by
  have hc : Sim.crisisLevel c8Ws c8FsCE = 1 := by
    norm_num [Sim.crisisLevel, Sim.unemploymentQ, Sim.avgInvQ,
      Sim.Factory.invRatioQ, eps, c8Ws, c8FsCE]
  refine ⟨?_, ?_, by norm_num, ?_⟩
  · norm_num [specSolventAvg, Sim.Factory.invRatioQ, eps, c8FsCE]
  · norm_num [Sim.unemploymentQ, c8Ws]
  · unfold Sim.intervene
    rw [if_neg (by norm_num), if_neg (by rw [hc]; norm_num)]

/-- Claim C8 as amended: when the cooldown has elapsed and the code's two
indicators are breached — unemployment ratio > 0.2 and the sum of solvent
firms' inventory ratios divided by the constant 3 (not their average) > 1.5 —
the intervention stamps the current day, adds the same uniform 500 to every
worker's wealth, and maps every factory through the boost, which applies debt
relief (debt * 0.7) and the production boost (int(production * 1.2)) exactly
to non-bankrupt HEAVY_INDUSTRY factories and leaves every other factory
completely unchanged. -/
theorem c8_amended_thm :
    ∀ (step last : ℤ) (ws : List Sim.Worker) (fs : List Sim.Factory),
      60 ≤ step - last → 1/5 < Sim.unemploymentQ ws → 3/2 < Sim.avgInvQ fs →
        Sim.intervene step last ws fs =
          (step, ws.map (fun w => { w with wealth := w.wealth + 500 }),
            fs.map Sim.boost) ∧
        (∀ f : Sim.Factory,
          f.ptype = Sim.ProductType.HEAVY_INDUSTRY ∧ f.bankrupt = false →
            Sim.boost f =
              { f with debt := f.debt * (7/10),
                       production := pyInt ((f.production : ℚ) * (6/5)) }) ∧
        (∀ f : Sim.Factory,
          ¬ (f.ptype = Sim.ProductType.HEAVY_INDUSTRY ∧ f.bankrupt = false) →
            Sim.boost f = f) := by
  intro step last ws fs h1 h2 h3
  have hc : Sim.crisisLevel ws fs = 2 := by
    unfold Sim.crisisLevel
    rw [if_pos h2, if_pos h3]
  refine ⟨?_, ?_, ?_⟩
  · unfold Sim.intervene
    rw [if_neg (by omega), if_pos (by rw [hc])]
  · intro f hf
    unfold Sim.boost
    rw [if_pos hf]
  · intro f hf
    unfold Sim.boost
    rw [if_neg hf]

/-- Witness for C8's amended theorem at a concrete triggering input. -/
theorem c8_witness :
    Sim.intervene 0 (-100) c8Ws c8FsW =
      (0, c8Ws.map (fun w => { w with wealth := w.wealth + 500 }),
        c8FsW.map Sim.boost) := by
  refine (c8_amended_thm 0 (-100) c8Ws c8FsW (by norm_num) ?_ ?_).1
  · norm_num [Sim.unemploymentQ, c8Ws]
  · norm_num [Sim.avgInvQ, Sim.Factory.invRatioQ, eps, c8FsW]

/-- A failed purchase in Agents_perfect.py `Worker.consume` — whichever of the
two causes failed — leaves exactly the subsistence deduction, the
relative-wealth update, and a happiness drop of 1. -/
theorem perfect_consume_fail_eq (n : ℕ) (s : Perfect.CState)
    (h : ¬ (0 ≤ s.wealth - 1 - s.prices * n ∧ (n : ℚ) < s.inventory)) :
    Perfect.consume n s =
      { s with wealth := s.wealth - 1,
               relative_wealth := (s.wealth - 1) / s.prices,
               happiness := s.happiness - 1 } := by
  simp only [Perfect.consume]
  rw [if_neg h]
  split_ifs <;> rfl

/-- Claim C9, as frozen, is refuted at concrete inputs: in the Agents_period.py
variant, a stock-out failure lowers happiness by 9 while an unaffordability
failure lowers it by 5 — the two failure causes do NOT produce identical state
changes. -/
theorem c9_counterexample :
    (Period.consume 1 c9A).happiness - c9A.happiness = -9 ∧
    (Period.consume 1 c9B).happiness - c9B.happiness = -5 ∧
    (Period.consume 1 c9A).happiness - c9A.happiness ≠
      (Period.consume 1 c9B).happiness - c9B.happiness := by
  norm_num [Period.consume, Perfect.marketSell, c9A, c9B]

/-- Claim C9 as amended: in the Agents_perfect.py variant the two failure
causes are indistinguishable in state — either failure leaves exactly the
subsistence deduction plus a happiness drop of 1; in the Agents_period.py
variant the failure causes differ: a stock-out lowers happiness by 9 and an
unaffordable purchase lowers it by 5 (each on top of the subsistence
deduction of 2). -/
theorem c9_amended_thm :
    (∀ (n : ℕ) (s : Perfect.CState),
      ¬ (0 ≤ s.wealth - 1 - s.prices * n ∧ (n : ℚ) < s.inventory) →
        Perfect.consume n s =
          { s with wealth := s.wealth - 1,
                   relative_wealth := (s.wealth - 1) / s.prices,
                   happiness := s.happiness - 1 }) ∧
    (∀ (n : ℕ) (s : Perfect.CState), s.inventory < (n : ℚ) →
        Period.consume n s =
          { s with wealth := s.wealth - 2,
                   relative_wealth := (s.wealth - 2) / s.prices,
                   happiness := s.happiness - 9 }) ∧
    (∀ (n : ℕ) (s : Perfect.CState),
      ¬ (0 ≤ s.wealth - 2 - s.prices * n ∧ (n : ℚ) < s.inventory) →
      ¬ (s.inventory < (n : ℚ)) →
        Period.consume n s =
          { s with wealth := s.wealth - 2,
                   relative_wealth := (s.wealth - 2) / s.prices,
                   happiness := s.happiness - 5 }) := by
  refine ⟨fun n s h => perfect_consume_fail_eq n s h, ?_, ?_⟩
  · intro n s h
    simp only [Period.consume]
    rw [if_neg (fun hb => absurd hb.2 (lt_asymm h)), if_pos h]
  · intro n s h1 h2
    simp only [Period.consume]
    rw [if_neg h1, if_neg h2]

/-- Witness for C9's amended theorem at the concrete fixtures: a failed
Agents_perfect.py purchase (stock-out), a stock-out Agents_period.py failure,
and an unaffordable Agents_period.py failure. -/
theorem c9_witness :
    Perfect.consume 1 c9A =
      { c9A with wealth := c9A.wealth - 1,
                 relative_wealth := (c9A.wealth - 1) / c9A.prices,
                 happiness := c9A.happiness - 1 } ∧
    Period.consume 1 c9A =
      { c9A with wealth := c9A.wealth - 2,
                 relative_wealth := (c9A.wealth - 2) / c9A.prices,
                 happiness := c9A.happiness - 9 } ∧
    Period.consume 1 c9B =
      { c9B with wealth := c9B.wealth - 2,
                 relative_wealth := (c9B.wealth - 2) / c9B.prices,
                 happiness := c9B.happiness - 5 } := by
  exact ⟨c9_amended_thm.1 1 c9A (by norm_num [c9A]),
    c9_amended_thm.2.1 1 c9A (by norm_num [c9A]),
    c9_amended_thm.2.2 1 c9B (by norm_num [c9B]) (by norm_num [c9B])⟩

/-- Claim C10 (confirmed): both consume variants deduct their fixed
subsistence cost (1 in Agents_perfect.py, 2 in Agents_period.py)
unconditionally — the only additional deduction is the guarded purchase — so
a worker with no purchasable stock loses exactly 1 per call, its wealth after
k calls is the initial wealth minus k, and it eventually drops below any
bound. -/
theorem c10_thm :
    (∀ (n : ℕ) (s : Perfect.CState),
      (Perfect.consume n s).wealth =
        s.wealth - 1 -
          (if 0 ≤ s.wealth - 1 - s.prices * n ∧ (n : ℚ) < s.inventory
            then s.prices * n else 0)) ∧
    (∀ (n : ℕ) (s : Perfect.CState),
      (Period.consume n s).wealth =
        s.wealth - 2 -
          (if 0 ≤ s.wealth - 2 - s.prices * n ∧ (n : ℚ) < s.inventory
            then s.prices * n else 0)) ∧
    (∀ (s : Perfect.CState) (k : ℕ), s.inventory ≤ 1 →
      ((fun t => Perfect.consume 1 t)^[k] s).wealth = s.wealth - k) ∧
    (∀ (s : Perfect.CState) (B : ℚ), s.inventory ≤ 1 →
      ∃ k : ℕ, ((fun t => Perfect.consume 1 t)^[k] s).wealth < B) := by
  have h3 : ∀ (s : Perfect.CState) (k : ℕ), s.inventory ≤ 1 →
      ((fun t => Perfect.consume 1 t)^[k] s).wealth = s.wealth - k := by
    intro s k
    induction k generalizing s with
    | zero => intro h; simp
    | succ m ih =>
      intro h
      rw [Function.iterate_succ_apply]
      have hf : Perfect.consume 1 s =
          { s with wealth := s.wealth - 1,
                   relative_wealth := (s.wealth - 1) / s.prices,
                   happiness := s.happiness - 1 } := by
        refine perfect_consume_fail_eq 1 s ?_
        intro hb
        have hb2 := hb.2
        push_cast at hb2
        linarith
      have hinv : (Perfect.consume 1 s).inventory ≤ 1 := by
        rw [hf]; exact h
      rw [ih (Perfect.consume 1 s) hinv, hf]
      push_cast
      show s.wealth - 1 - (m : ℚ) = s.wealth - ((m : ℚ) + 1)
      ring
  refine ⟨?_, ?_, h3, ?_⟩
  · intro n s
    simp only [Perfect.consume, Perfect.marketSell]
    split_ifs <;> simp
  · intro n s
    simp only [Period.consume, Perfect.marketSell]
    split_ifs <;> simp
  · intro s B h
    obtain ⟨k, hk⟩ := exists_nat_gt (s.wealth - B)
    refine ⟨k, ?_⟩
    rw [h3 s k h]
    linarith

/-- Witness for C10's theorem at the concrete fixture: a destitute worker with
no stock, starting at wealth 0, is at wealth -3 after three consume calls, and
eventually drops below -1000. -/
theorem c10_witness :
    ((fun t => Perfect.consume 1 t)^[3] c10S).wealth = c10S.wealth - 3 ∧
    ∃ k : ℕ, ((fun t => Perfect.consume 1 t)^[k] c10S).wealth < -1000 := by
  exact ⟨c10_thm.2.2.1 c10S 3 (by norm_num [c10S]),
    c10_thm.2.2.2 c10S (-1000) (by norm_num [c10S])⟩

